import Mathlib

/-!
Verification of the omron-fins-rs FINS protocol client.

This file gives a shallow embedding of the protocol core of the repository:
the frame header codec (src/header.rs), the memory area table (src/memory.rs),
the command encoders (src/command.rs), the response decoder (src/response.rs),
and the transaction layer (src/client.rs), together with theorems about them.

Machine integers (u8, u16, i32 bit patterns, f32 bit patterns) are modelled
as Nat; wraparound is written explicitly with % where the source wraps
(the AtomicU8 service-id counter). Byte buffers (Vec of u8 or u16) are
modelled as List Nat. Fallible Rust functions returning Result are modelled
as Except FinsError. Rust strings are modelled by their byte lists
(str::as_bytes); String::from_utf8_lossy is the identity on ASCII bytes.
-/

/-- Mirror of the FinsError enum in src/error.rs. The Io variant's payload
(a std::io::Error) carries no information used by any logic here, so it is
modelled as a bare constructor. -/
inductive FinsError where
  | PlcError (main_code : Nat) (sub_code : Nat)
  | InvalidAddressing (reason : String)
  | InvalidParameter (parameter : String) (reason : String)
  | InvalidResponse (reason : String)
  | Timeout
  | IoError
  | SidMismatch (expected : Nat) (received : Nat)
deriving Repr, DecidableEq

/-- True exactly on Except.ok. -/
def isOkE {α : Type} (e : Except FinsError α) : Bool :=
  match e with
  | Except.ok _ => true
  | Except.error _ => false

/-- True exactly on an InvalidParameter error. -/
def errIsInvalidParameter {α : Type} (e : Except FinsError α) : Bool :=
  match e with
  | Except.error (FinsError.InvalidParameter _ _) => true
  | _ => false

/-- True exactly on an InvalidAddressing error. -/
def errIsInvalidAddressing {α : Type} (e : Except FinsError α) : Bool :=
  match e with
  | Except.error (FinsError.InvalidAddressing _) => true
  | _ => false

/-- True exactly on an InvalidResponse error. -/
def errIsInvalidResponse {α : Type} (e : Except FinsError α) : Bool :=
  match e with
  | Except.error (FinsError.InvalidResponse _) => true
  | _ => false

/-- NodeAddress from src/header.rs: a network/node/unit triple of u8. -/
structure NodeAddress where
  network : Nat
  node : Nat
  unit : Nat
deriving Repr, DecidableEq

/-- FINS_HEADER_SIZE from src/header.rs. -/
def FINS_HEADER_SIZE : Nat := 10

/-- FinsHeader from src/header.rs: the fixed 10-byte FINS frame header. -/
structure FinsHeader where
  icf : Nat
  rsv : Nat
  gct : Nat
  dna : Nat
  da1 : Nat
  da2 : Nat
  sna : Nat
  sa1 : Nat
  sa2 : Nat
  sid : Nat
deriving Repr, DecidableEq

/-- FinsHeader::new_command from src/header.rs: icf = 0x80 (command,
response required), rsv = 0x00, gct = 0x07, then the destination and
source triples and the service id. -/
def FinsHeader.new_command (destination source : NodeAddress) (sid : Nat) : FinsHeader :=
  { icf := 0x80
    rsv := 0x00
    gct := 0x07
    dna := destination.network
    da1 := destination.node
    da2 := destination.unit
    sna := source.network
    sa1 := source.node
    sa2 := source.unit
    sid := sid }

/-- FinsHeader::to_bytes from src/header.rs: the 10 fields in order. -/
def FinsHeader.to_bytes (h : FinsHeader) : List Nat :=
  [h.icf, h.rsv, h.gct, h.dna, h.da1, h.da2, h.sna, h.sa1, h.sa2, h.sid]

/-- FinsHeader::from_bytes from src/header.rs: fails with InvalidResponse
when fewer than 10 bytes are supplied, otherwise reads the 10 fields at
indices 0..9. Indexing is with getD, which under the length guard is the
slice indexing of the source. -/
def FinsHeader.from_bytes (data : List Nat) : Except FinsError FinsHeader :=
  if data.length < FINS_HEADER_SIZE then
    Except.error (FinsError.InvalidResponse ("header too short"))
  else
    Except.ok
      { icf := data.getD 0 0
        rsv := data.getD 1 0
        gct := data.getD 2 0
        dna := data.getD 3 0
        da1 := data.getD 4 0
        da2 := data.getD 5 0
        sna := data.getD 6 0
        sa1 := data.getD 7 0
        sa2 := data.getD 8 0
        sid := data.getD 9 0 }

/-- MemoryArea from src/memory.rs. The Rust variant CIO is spelled CIOArea
here; WR, HR, DM, AR keep their names. -/
inductive MemoryArea where
  | CIOArea
  | WR
  | HR
  | DM
  | AR
deriving Repr, DecidableEq

/-- MemoryArea::word_code from src/memory.rs: total over the five areas. -/
def MemoryArea.word_code (a : MemoryArea) : Nat :=
  match a with
  | MemoryArea.CIOArea => 0xB0
  | MemoryArea.WR => 0xB1
  | MemoryArea.HR => 0xB2
  | MemoryArea.DM => 0x82
  | MemoryArea.AR => 0xB3

/-- MemoryArea::bit_code from src/memory.rs: fails with InvalidAddressing
on the DM area. -/
def MemoryArea.bit_code (a : MemoryArea) : Except FinsError Nat :=
  match a with
  | MemoryArea.CIOArea => Except.ok 0x30
  | MemoryArea.WR => Except.ok 0x31
  | MemoryArea.HR => Except.ok 0x32
  | MemoryArea.DM =>
      Except.error (FinsError.InvalidAddressing ("DM area does not support bit access"))
  | MemoryArea.AR => Except.ok 0x33

/-- MemoryArea::supports_bit_access from src/memory.rs. -/
def MemoryArea.supports_bit_access (a : MemoryArea) : Bool :=
  match a with
  | MemoryArea.DM => false
  | _ => true

/-- MRC/SRC operation-code constants from src/command.rs. -/
def MRC_MEMORY_READ : Nat := 0x01

/-- Memory Read sub-code from src/command.rs. -/
def SRC_MEMORY_READ : Nat := 0x01

/-- Memory Write main code from src/command.rs. -/
def MRC_MEMORY_WRITE : Nat := 0x01

/-- Memory Write sub-code from src/command.rs. -/
def SRC_MEMORY_WRITE : Nat := 0x02

/-- Memory Fill sub-code from src/command.rs. -/
def SRC_MEMORY_FILL : Nat := 0x03

/-- Memory Area Transfer sub-code from src/command.rs. -/
def SRC_MEMORY_TRANSFER : Nat := 0x05

/-- MAX_WORDS_PER_COMMAND from src/command.rs. -/
def MAX_WORDS_PER_COMMAND : Nat := 999

/-- Address from src/command.rs: a word address plus a bit position
(0 for word access). -/
structure Address where
  word : Nat
  bit : Nat
deriving Repr, DecidableEq

/-- Address::word from src/command.rs (named ofWord because the structure
field is already named word): a word-only address with bit = 0. -/
def Address.ofWord (word : Nat) : Address :=
  { word := word, bit := 0 }

/-- Address::bit from src/command.rs (named ofBit for the same reason):
fails with InvalidParameter when bit > 15. -/
def Address.ofBit (word : Nat) (bit : Nat) : Except FinsError Address :=
  if bit > 15 then
    Except.error (FinsError.InvalidParameter ("bit") ("must be 0-15"))
  else
    Except.ok { word := word, bit := bit }

/-- Address::to_bytes from src/command.rs: word high byte, word low byte,
bit. The shifts and masks of the source are / 256 and % 256 on Nat. -/
def Address.to_bytes (a : Address) : List Nat :=
  [a.word / 256, a.word % 256, a.bit]

/-- ReadWordCommand from src/command.rs. -/
structure ReadWordCommand where
  header : FinsHeader
  area : MemoryArea
  address : Address
  count : Nat
deriving Repr, DecidableEq

/-- ReadWordCommand::new from src/command.rs: count 0 and
count > MAX_WORDS_PER_COMMAND fail with InvalidParameter. -/
def ReadWordCommand.new (destination source : NodeAddress) (sid : Nat)
    (area : MemoryArea) (word_address : Nat) (count : Nat) :
    Except FinsError ReadWordCommand :=
  if count = 0 then
    Except.error (FinsError.InvalidParameter ("count") ("must be greater than 0"))
  else if count > MAX_WORDS_PER_COMMAND then
    Except.error (FinsError.InvalidParameter ("count") ("must not exceed 999"))
  else
    Except.ok
      { header := FinsHeader.new_command destination source sid
        area := area
        address := Address.ofWord word_address
        count := count }

/-- ReadWordCommand::to_bytes from src/command.rs: header, MRC, SRC, area
word-code, 3-byte address, 2-byte big-endian count. -/
def ReadWordCommand.to_bytes (c : ReadWordCommand) : List Nat :=
  c.header.to_bytes
    ++ [MRC_MEMORY_READ, SRC_MEMORY_READ, c.area.word_code]
    ++ c.address.to_bytes
    ++ [c.count / 256, c.count % 256]

/-- WriteWordCommand from src/command.rs. -/
structure WriteWordCommand where
  header : FinsHeader
  area : MemoryArea
  address : Address
  data : List Nat
deriving Repr, DecidableEq

/-- WriteWordCommand::new from src/command.rs: empty data or more than
MAX_WORDS_PER_COMMAND words fails with InvalidParameter. -/
def WriteWordCommand.new (destination source : NodeAddress) (sid : Nat)
    (area : MemoryArea) (word_address : Nat) (data : List Nat) :
    Except FinsError WriteWordCommand :=
  if data.isEmpty then
    Except.error (FinsError.InvalidParameter ("data") ("must not be empty"))
  else if data.length > MAX_WORDS_PER_COMMAND then
    Except.error (FinsError.InvalidParameter ("data") ("must not exceed 999 words"))
  else
    Except.ok
      { header := FinsHeader.new_command destination source sid
        area := area
        address := Address.ofWord word_address
        data := data }

/-- The big-endian byte expansion of a list of 16-bit words, as pushed by
WriteWordCommand::to_bytes in src/command.rs. -/
def wordsToBeBytes : List Nat → List Nat
  | [] => []
  | w :: rest => (w / 256) :: (w % 256) :: wordsToBeBytes rest

/-- WriteWordCommand::to_bytes from src/command.rs. -/
def WriteWordCommand.to_bytes (c : WriteWordCommand) : List Nat :=
  c.header.to_bytes
    ++ [MRC_MEMORY_WRITE, SRC_MEMORY_WRITE, c.area.word_code]
    ++ c.address.to_bytes
    ++ [c.data.length / 256, c.data.length % 256]
    ++ wordsToBeBytes c.data

/-- FillCommand from src/command.rs. -/
structure FillCommand where
  header : FinsHeader
  area : MemoryArea
  address : Address
  count : Nat
  value : Nat
deriving Repr, DecidableEq

/-- FillCommand::new from src/command.rs: count 0 and
count > MAX_WORDS_PER_COMMAND fail with InvalidParameter. -/
def FillCommand.new (destination source : NodeAddress) (sid : Nat)
    (area : MemoryArea) (word_address : Nat) (count : Nat) (value : Nat) :
    Except FinsError FillCommand :=
  if count = 0 then
    Except.error (FinsError.InvalidParameter ("count") ("must be greater than 0"))
  else if count > MAX_WORDS_PER_COMMAND then
    Except.error (FinsError.InvalidParameter ("count") ("must not exceed 999"))
  else
    Except.ok
      { header := FinsHeader.new_command destination source sid
        area := area
        address := Address.ofWord word_address
        count := count
        value := value }

/-- FillCommand::to_bytes from src/command.rs. -/
def FillCommand.to_bytes (c : FillCommand) : List Nat :=
  c.header.to_bytes
    ++ [MRC_MEMORY_READ, SRC_MEMORY_FILL, c.area.word_code]
    ++ c.address.to_bytes
    ++ [c.count / 256, c.count % 256, c.value / 256, c.value % 256]

/-- TransferCommand from src/command.rs. -/
structure TransferCommand where
  header : FinsHeader
  src_area : MemoryArea
  src_address : Address
  dst_area : MemoryArea
  dst_address : Address
  count : Nat
deriving Repr, DecidableEq

/-- TransferCommand::new from src/command.rs: count 0 and
count > MAX_WORDS_PER_COMMAND fail with InvalidParameter. -/
def TransferCommand.new (destination source : NodeAddress) (sid : Nat)
    (src_area : MemoryArea) (src_address : Nat)
    (dst_area : MemoryArea) (dst_address : Nat) (count : Nat) :
    Except FinsError TransferCommand :=
  if count = 0 then
    Except.error (FinsError.InvalidParameter ("count") ("must be greater than 0"))
  else if count > MAX_WORDS_PER_COMMAND then
    Except.error (FinsError.InvalidParameter ("count") ("must not exceed 999"))
  else
    Except.ok
      { header := FinsHeader.new_command destination source sid
        src_area := src_area
        src_address := Address.ofWord src_address
        dst_area := dst_area
        dst_address := Address.ofWord dst_address
        count := count }

/-- TransferCommand::to_bytes from src/command.rs. -/
def TransferCommand.to_bytes (c : TransferCommand) : List Nat :=
  c.header.to_bytes
    ++ [MRC_MEMORY_READ, SRC_MEMORY_TRANSFER, c.src_area.word_code]
    ++ c.src_address.to_bytes
    ++ [c.dst_area.word_code]
    ++ c.dst_address.to_bytes
    ++ [c.count / 256, c.count % 256]

/-- MIN_RESPONSE_SIZE from src/response.rs: header (10) + MRC + SRC +
main code + sub code = 14. -/
def MIN_RESPONSE_SIZE : Nat := FINS_HEADER_SIZE + 4

/-- FinsResponse from src/response.rs. -/
structure FinsResponse where
  header : FinsHeader
  mrc : Nat
  src : Nat
  main_code : Nat
  sub_code : Nat
  data : List Nat
deriving Repr, DecidableEq

/-- FinsResponse::from_bytes from src/response.rs: rejects buffers shorter
than MIN_RESPONSE_SIZE, parses the header from the first 10 bytes, then
reads MRC, SRC, the status pair, and takes the remainder as payload. -/
def FinsResponse.from_bytes (data : List Nat) : Except FinsError FinsResponse :=
  if data.length < MIN_RESPONSE_SIZE then
    Except.error (FinsError.InvalidResponse ("response too short"))
  else
    match FinsHeader.from_bytes (data.take FINS_HEADER_SIZE) with
    | Except.error e => Except.error e
    | Except.ok header =>
        Except.ok
          { header := header
            mrc := data.getD FINS_HEADER_SIZE 0
            src := data.getD (FINS_HEADER_SIZE + 1) 0
            main_code := data.getD (FINS_HEADER_SIZE + 2) 0
            sub_code := data.getD (FINS_HEADER_SIZE + 3) 0
            data := data.drop MIN_RESPONSE_SIZE }

/-- FinsResponse::is_success from src/response.rs. -/
def FinsResponse.is_success (r : FinsResponse) : Bool :=
  r.main_code == 0x00 && r.sub_code == 0x00

/-- FinsResponse::check_error from src/response.rs: success, or the
(0x00, 0x40) routing-table warning with non-empty data, is Ok; anything
else is a PlcError carrying the received status pair. -/
def FinsResponse.check_error (r : FinsResponse) : Except FinsError Unit :=
  if r.is_success then
    Except.ok ()
  else if r.main_code == 0x00 && r.sub_code == 0x40 && !r.data.isEmpty then
    Except.ok ()
  else
    Except.error (FinsError.PlcError r.main_code r.sub_code)

/-- FinsResponse::check_sid from src/response.rs. -/
def FinsResponse.check_sid (r : FinsResponse) (expected : Nat) : Except FinsError Unit :=
  if r.header.sid == expected then
    Except.ok ()
  else
    Except.error (FinsError.SidMismatch expected r.header.sid)

/-- The chunks_exact(2) big-endian word conversion of
FinsResponse::to_words in src/response.rs. -/
def beBytesToWords : List Nat → List Nat
  | b0 :: b1 :: rest => (b0 * 256 + b1) :: beBytesToWords rest
  | _ => []

/-- FinsResponse::to_words from src/response.rs: requires an even payload
length, then reinterprets the payload as big-endian u16 words. -/
def FinsResponse.to_words (r : FinsResponse) : Except FinsError (List Nat) :=
  if r.data.length % 2 ≠ 0 then
    Except.error (FinsError.InvalidResponse ("data length must be even for word conversion"))
  else
    Except.ok (beBytesToWords r.data)

/-- FinsResponse::to_bit from src/response.rs: requires a non-empty
payload; byte zero means false, anything else true. -/
def FinsResponse.to_bit (r : FinsResponse) : Except FinsError Bool :=
  match r.data with
  | [] => Except.error (FinsError.InvalidResponse ("no data for bit conversion"))
  | b :: _ => Except.ok (b != 0)

/-- The transport boundary consumed by the transaction layer in
src/client.rs. The concrete UdpTransport (src/transport.rs) is external
I/O; it is abstracted as a state type with the two operations the client
uses: send_receive (one blocking send-then-receive on the given buffer)
and drain_pending. The drain_pending operation itself is absent from the
sources under src (only its call sites in src/client.rs appear); modelled
from the spec: a best-effort, non-blocking discard of any datagrams
already queued, with no other effect on the transport. -/
structure Transport (σ : Type) where
  send_receive : List Nat → σ → Except FinsError (List Nat) × σ
  drain_pending : σ → σ

/-- MAX_SID_RETRIES from Client::send_receive_with_sid in src/client.rs. -/
def MAX_SID_RETRIES : Nat := 3

/-- One send_receive + FinsResponse::from_bytes exchange, the two fallible
lines inside each iteration of Client::send_receive_with_sid in
src/client.rs; a transport error or decode error aborts the whole call. -/
def oneExchange {σ : Type} (T : Transport σ) (data : List Nat) (s : σ) :
    Except FinsError FinsResponse × σ :=
  match T.send_receive data s with
  | (Except.error e, s2) => (Except.error e, s2)
  | (Except.ok rb, s2) =>
      match FinsResponse.from_bytes rb with
      | Except.error e => (Except.error e, s2)
      | Except.ok r => (Except.ok r, s2)

/-- The retry loop of Client::send_receive_with_sid in src/client.rs.
The fuel argument is the number of remaining loop iterations (the Rust
`for attempt in 0..=MAX_SID_RETRIES` runs MAX_SID_RETRIES + 1 of them);
the Bool argument is true exactly on the first iteration (attempt = 0),
which does not drain first. When the fuel runs out, the code performs one
final drain + send + decode purely to obtain the actually received sid,
then fails with SidMismatch. -/
def sidLoop {σ : Type} (T : Transport σ) (data : List Nat) (expected_sid : Nat) :
    Nat → Bool → σ → Except FinsError FinsResponse × σ
  | 0, _, s =>
      match oneExchange T data (T.drain_pending s) with
      | (Except.error e, s2) => (Except.error e, s2)
      | (Except.ok r, s2) =>
          (Except.error (FinsError.SidMismatch expected_sid r.header.sid), s2)
  | n + 1, first, s =>
      match oneExchange T data (if first then s else T.drain_pending s) with
      | (Except.error e, s2) => (Except.error e, s2)
      | (Except.ok r, s2) =>
          if r.header.sid = expected_sid then (Except.ok r, s2)
          else sidLoop T data expected_sid n false s2

/-- Client::send_receive_with_sid from src/client.rs, over an abstract
transport state. -/
def send_receive_with_sid {σ : Type} (T : Transport σ) (data : List Nat)
    (expected_sid : Nat) (s : σ) : Except FinsError FinsResponse × σ :=
  sidLoop T data expected_sid (MAX_SID_RETRIES + 1) true s

/-- Client::next_sid from src/client.rs: AtomicU8::fetch_add(1) returns
the previous counter value and stores the incremented value, wrapping
mod 256. The counter state is the Nat value of the AtomicU8. -/
def next_sid (counter : Nat) : Nat × Nat :=
  (counter, (counter + 1) % 256)

/-- The sid counter after n allocations, starting from the 0 that
Client::new installs (sid_counter: AtomicU8::new(0)). -/
def sidCounterAfter : Nat → Nat
  | 0 => 0
  | n + 1 => (next_sid (sidCounterAfter n)).2

/-- The correlation id handed out by the (n+1)-th call to next_sid on a
fresh Client (n is 0-based). -/
def allocatedSid (n : Nat) : Nat :=
  (next_sid (sidCounterAfter n)).1

/-- A transport stub that answers every send_receive with the same fixed
reply. The state counts (sends, drains). -/
def constStub (reply : List Nat) : Transport (Nat × Nat) where
  send_receive := fun _ s => (Except.ok reply, (s.1 + 1, s.2))
  drain_pending := fun s => (s.1, s.2 + 1)

/-- A transport stub scripted with a list of successive replies; an
exhausted script times out. The state is (remaining script, sends,
drains); drain_pending discards nothing because each scripted datagram is
produced only in reply to a send. -/
def scriptStub : Transport (List (List Nat) × Nat × Nat) where
  send_receive := fun _ s =>
    match s.1 with
    | [] => (Except.error FinsError.Timeout, ([], s.2.1 + 1, s.2.2))
    | rb :: rest => (Except.ok rb, (rest, s.2.1 + 1, s.2.2))
  drain_pending := fun s => (s.1, s.2.1, s.2.2 + 1)

/-- The big-endian byte of a 32-bit value at position i (0 = most
significant), as produced by to_be_bytes in src/client.rs. -/
def beByte32 (bits : Nat) (i : Nat) : Nat :=
  bits / 2 ^ (8 * (3 - i)) % 256

/-- u16::from_be_bytes on two bytes. -/
def u16FromBeBytes (hi lo : Nat) : Nat :=
  hi * 256 + lo

/-- The word pair built by Client::write_f32 in src/client.rs from the
IEEE-754 bit pattern of the value (value.to_be_bytes gives bytes 0..3 of
the pattern, most significant first): words[0] is from bytes 2 and 3,
words[1] from bytes 0 and 1 — the Omron word swap, low word first. -/
def write_f32_words (bits : Nat) : Nat × Nat :=
  (u16FromBeBytes (beByte32 bits 2) (beByte32 bits 3),
   u16FromBeBytes (beByte32 bits 0) (beByte32 bits 1))

/-- The IEEE-754 bit pattern recovered by Client::read_f32 in
src/client.rs from the two words it read: the be-bytes buffer is
[w1 high, w1 low, w0 high, w0 low]. The shifts and masks of the source are
/ 256 and % 256 on Nat. -/
def read_f32_bits (w0 w1 : Nat) : Nat :=
  (w1 / 256) * 2 ^ 24 + (w1 % 256) * 2 ^ 16 + (w0 / 256) * 2 ^ 8 + w0 % 256

/-- The word pair built by Client::write_i32 in src/client.rs from the
two's-complement bit pattern of the value: words[0] is from bytes 0 and 1,
words[1] from bytes 2 and 3 — plain big-endian word order, no swap. -/
def write_i32_words (bits : Nat) : Nat × Nat :=
  (u16FromBeBytes (beByte32 bits 0) (beByte32 bits 1),
   u16FromBeBytes (beByte32 bits 2) (beByte32 bits 3))

/-- The two's-complement bit pattern recovered by Client::read_i32 in
src/client.rs: the be-bytes buffer is [w0 high, w0 low, w1 high, w1 low]. -/
def read_i32_bits (w0 w1 : Nat) : Nat :=
  (w0 / 256) * 2 ^ 24 + (w0 % 256) * 2 ^ 16 + (w1 / 256) * 2 ^ 8 + w1 % 256

/-- The string-to-words packing of Client::write_string in src/client.rs:
value.as_bytes() chunked two at a time; each word is (high << 8) | low
with the chunk's first byte in the low half, and an odd trailing chunk
padded with high = 0. Strings are modelled as their ASCII byte lists. -/
def stringToWords : List Nat → List Nat
  | [] => []
  | [b] => b :: []
  | b0 :: b1 :: rest => (b1 * 256 + b0) :: stringToWords rest

/-- The words-to-bytes unpacking of Client::read_string in src/client.rs:
for each word, the low byte first, then the high byte. -/
def wordsToStringBytes : List Nat → List Nat
  | [] => []
  | w :: rest => (w % 256) :: (w / 256) :: wordsToStringBytes rest

/-- The trailing-NUL trim loop of Client::read_string in src/client.rs
(pop while the last byte is 0), written as dropping the longest zero
suffix. -/
def trimTrailingNulls (bs : List Nat) : List Nat :=
  (bs.reverse.dropWhile (fun b => b == 0)).reverse

/-- Client::read_string's full payload transform in src/client.rs:
unpack the words low-byte-first, then trim trailing NUL bytes
(String::from_utf8_lossy is the identity on the ASCII bytes involved). -/
def readStringBytes (words : List Nat) : List Nat :=
  trimTrailingNulls (wordsToStringBytes words)

/-- The expected wire buffer for reading 10 words at DM 100 with
destination (0,10,0), source (0,1,0) and service id 0x01. -/
def dmRead100x10Bytes : List Nat :=
  [0x80, 0x00, 0x07, 0x00, 0x0A, 0x00, 0x00, 0x01, 0x00, 0x01,
   0x01, 0x01, 0x82, 0x00, 0x64, 0x00, 0x00, 0x0A]

theorem sidCounterAfter_eq (n : Nat) : sidCounterAfter n = n % 256 := by
  induction n with
  | zero => rfl
  | succ n ih =>
      show (next_sid (sidCounterAfter n)).2 = (n + 1) % 256
      rw [ih]
      show (n % 256 + 1) % 256 = (n + 1) % 256
      omega

theorem allocatedSid_eq (n : Nat) : allocatedSid n = n % 256 := by
  show (next_sid (sidCounterAfter n)).1 = n % 256
  rw [show (next_sid (sidCounterAfter n)).1 = sidCounterAfter n from rfl,
    sidCounterAfter_eq]

/-- Claim C2: FinsResponse::check_error succeeds exactly on a zero status
pair, or on the (0x00, 0x40) routing warning with a non-empty payload;
every other status pair, including (0x00, 0x40) with an empty payload,
fails with a PlcError carrying exactly the received main and sub codes. -/
theorem check_error_characterization (r : FinsResponse) :
    FinsResponse.check_error r =
      if (r.main_code = 0 ∧ r.sub_code = 0) ∨
          (r.main_code = 0 ∧ r.sub_code = 0x40 ∧ r.data ≠ []) then
        Except.ok ()
      else
        Except.error (FinsError.PlcError r.main_code r.sub_code) := by
  unfold FinsResponse.check_error FinsResponse.is_success
  by_cases h1 : r.main_code = 0
  · by_cases h2 : r.sub_code = 0
    · simp [h1, h2]
    · by_cases h3 : r.sub_code = 0x40
      · by_cases h4 : r.data = []
        · simp [h1, h2, h3, h4]
        · simp [h1, h2, h3, h4]
      · simp [h1, h2, h3]
  · simp [h1]

/-- Claim C4: encoding a FinsHeader and decoding the bytes reproduces
every field exactly, and FinsHeader::from_bytes fails, with
InvalidResponse, if and only if fewer than 10 bytes are supplied. -/
theorem header_roundtrip_and_length :
    (∀ h : FinsHeader, FinsHeader.from_bytes (FinsHeader.to_bytes h) = Except.ok h)
    ∧ (∀ data : List Nat,
        isOkE (FinsHeader.from_bytes data) = !decide (data.length < 10))
    ∧ (∀ data : List Nat,
        errIsInvalidResponse (FinsHeader.from_bytes data) = decide (data.length < 10)) := by
  refine ⟨?_, ?_, ?_⟩
  · intro h
    cases h
    rfl
  · intro data
    unfold FinsHeader.from_bytes FINS_HEADER_SIZE
    by_cases h : data.length < 10
    · simp [h, isOkE]
    · simp [h, isOkE]
  · intro data
    unfold FinsHeader.from_bytes FINS_HEADER_SIZE
    by_cases h : data.length < 10
    · simp [h, errIsInvalidResponse]
    · simp [h, errIsInvalidResponse]

/-- Claim C7: MemoryArea::bit_code fails exactly when
MemoryArea::supports_bit_access is false, the failure is InvalidAddressing,
bit access is unsupported exactly for the DM area, and
MemoryArea::word_code is total (one of the five area codes) on every
area. -/
theorem bit_code_supports_bit_access (a : MemoryArea) :
    (isOkE a.bit_code = a.supports_bit_access)
    ∧ (errIsInvalidAddressing a.bit_code = !a.supports_bit_access)
    ∧ (a.supports_bit_access = false ↔ a = MemoryArea.DM)
    ∧ (a.word_code = 0xB0 ∨ a.word_code = 0xB1 ∨ a.word_code = 0xB2 ∨
        a.word_code = 0x82 ∨ a.word_code = 0xB3) := by
  cases a <;> simp [MemoryArea.bit_code, MemoryArea.supports_bit_access,
    MemoryArea.word_code, isOkE, errIsInvalidAddressing]

/-- Claim C8: construction of ReadWordCommand, WriteWordCommand,
FillCommand and TransferCommand succeeds exactly when the word count (the
data length for WriteWordCommand) is between 1 and 999, and otherwise
fails with InvalidParameter, for every choice of the other arguments. -/
theorem command_count_validation (destination source : NodeAddress) (sid : Nat)
    (area src_area dst_area : MemoryArea) (addr saddr daddr : Nat)
    (count : Nat) (value : Nat) (data : List Nat) :
    (isOkE (ReadWordCommand.new destination source sid area addr count) =
      decide (1 ≤ count ∧ count ≤ 999))
    ∧ (errIsInvalidParameter (ReadWordCommand.new destination source sid area addr count) =
      !decide (1 ≤ count ∧ count ≤ 999))
    ∧ (isOkE (WriteWordCommand.new destination source sid area addr data) =
      decide (1 ≤ data.length ∧ data.length ≤ 999))
    ∧ (errIsInvalidParameter (WriteWordCommand.new destination source sid area addr data) =
      !decide (1 ≤ data.length ∧ data.length ≤ 999))
    ∧ (isOkE (FillCommand.new destination source sid area addr count value) =
      decide (1 ≤ count ∧ count ≤ 999))
    ∧ (errIsInvalidParameter (FillCommand.new destination source sid area addr count value) =
      !decide (1 ≤ count ∧ count ≤ 999))
    ∧ (isOkE (TransferCommand.new destination source sid src_area saddr dst_area daddr count) =
      decide (1 ≤ count ∧ count ≤ 999))
    ∧ (errIsInvalidParameter
        (TransferCommand.new destination source sid src_area saddr dst_area daddr count) =
      !decide (1 ≤ count ∧ count ≤ 999)) := by
  unfold ReadWordCommand.new WriteWordCommand.new FillCommand.new TransferCommand.new
    MAX_WORDS_PER_COMMAND
  refine ⟨?_, ?_, ?_, ?_, ?_, ?_, ?_, ?_⟩ <;>
    · split_ifs <;> simp_all [isOkE, errIsInvalidParameter, List.isEmpty_iff,
        Nat.one_le_iff_ne_zero, List.length_eq_zero] <;> omega

/-- Claim C9: encoding a read-word command for area DM, word address 100,
count 10, destination (0,10,0), source (0,1,0), correlation id 0x01 gives
exactly an 18-byte buffer whose byte 12 is the DM word-access code 0x82
and whose bytes 16 and 17 are 0x00 and 0x0A. -/
theorem read_dm100_count10_encoding :
    Except.map ReadWordCommand.to_bytes
        (ReadWordCommand.new ⟨0, 10, 0⟩ ⟨0, 1, 0⟩ 0x01 MemoryArea.DM 100 10) =
      Except.ok dmRead100x10Bytes
    ∧ dmRead100x10Bytes.length = 18
    ∧ dmRead100x10Bytes.getD 12 0 = MemoryArea.word_code MemoryArea.DM
    ∧ dmRead100x10Bytes.getD 16 0 = 0x00
    ∧ dmRead100x10Bytes.getD 17 0 = 0x0A := by
  refine ⟨rfl, rfl, rfl, rfl, rfl⟩

/-- Claim C10: the correlation-id counter starts at 0 and next_sid returns
the value before incrementing, so the first allocation is 0, the k-th
allocation is (k-1) mod 256, and any 256 consecutive allocations are
pairwise distinct. -/
theorem sid_counter_allocation :
    allocatedSid 0 = 0
    ∧ (∀ k : Nat, 1 ≤ k → allocatedSid (k - 1) = (k - 1) % 256)
    ∧ (∀ i j : Nat, i < j → j < i + 256 → allocatedSid i ≠ allocatedSid j) := by
  refine ⟨rfl, ?_, ?_⟩
  · intro k _
    exact allocatedSid_eq (k - 1)
  · intro i j hij hlt h
    rw [allocatedSid_eq, allocatedSid_eq] at h
    omega

/-- Witness for claim C10 at k = 3 and at the pair (0, 255). -/
theorem sid_counter_allocation_witness :
    (1 ≤ 3 ∧ allocatedSid 2 = 2 % 256) ∧ (0 < 255 ∧ 255 < 0 + 256 ∧ allocatedSid 0 ≠ allocatedSid 255) :=
  ⟨⟨by decide, sid_counter_allocation.2.1 3 (by decide)⟩,
   ⟨by decide, by decide, sid_counter_allocation.2.2 0 255 (by decide) (by decide)⟩⟩

/-- Counterexample for claim C3: write_i32 does not place the low-order
word of the 32-bit pattern first. At the pattern 0x00010002 (the i32 value
65538) the word written at the starting address is 0x0001, the high-order
word, not the low-order word 0x0002. -/
theorem write_i32_not_low_word_first :
    write_i32_words 0x00010002 = (1, 2)
    ∧ 0x00010002 % 2 ^ 16 = 2
    ∧ (write_i32_words 0x00010002).1 ≠ 0x00010002 % 2 ^ 16 := by
  refine ⟨rfl, rfl, by decide⟩

/-- Claim C3, amended: write_f32 places the low-order word of the IEEE-754
bit pattern at the starting address and the high-order word second, and
read_f32 is its exact inverse; write_i32 instead places the HIGH-order
word of the two's-complement pattern first (plain big-endian order, no
word swap), and read_i32 is its exact inverse. -/
theorem typed_32bit_word_order (bits : Nat) (h : bits < 2 ^ 32) :
    (write_f32_words bits).1 = bits % 2 ^ 16
    ∧ (write_f32_words bits).2 = bits / 2 ^ 16
    ∧ read_f32_bits (write_f32_words bits).1 (write_f32_words bits).2 = bits
    ∧ (write_i32_words bits).1 = bits / 2 ^ 16
    ∧ (write_i32_words bits).2 = bits % 2 ^ 16
    ∧ read_i32_bits (write_i32_words bits).1 (write_i32_words bits).2 = bits := by
  unfold write_f32_words write_i32_words read_f32_bits read_i32_bits u16FromBeBytes beByte32
  norm_num
  omega

theorem wordsToStringBytes_stringToWords (bs : List Nat) (h : ∀ b ∈ bs, b < 256) :
    wordsToStringBytes (stringToWords bs) =
      bs ++ (if bs.length % 2 = 1 then [0] else []) := by
  induction bs using stringToWords.induct with
  | case1 => rfl
  | case2 b =>
      have hb : b < 256 := h b (by simp)
      simp [stringToWords, wordsToStringBytes, Nat.mod_eq_of_lt hb, Nat.div_eq_of_lt hb]
  | case3 b0 b1 rest ih =>
      have hb0 : b0 < 256 := h b0 (by simp)
      have hb1 : b1 < 256 := h b1 (by simp)
      have hrest : ∀ b ∈ rest, b < 256 := fun b hb => h b (by simp [hb])
      have hlow : (b1 * 256 + b0) % 256 = b0 := by omega
      have hhigh : (b1 * 256 + b0) / 256 = b1 := by omega
      simp only [stringToWords, wordsToStringBytes, hlow, hhigh, ih hrest,
        List.length_cons]
      by_cases hp : rest.length % 2 = 1
      · have hp2 : (rest.length + 1 + 1) % 2 = 1 := by omega
        simp [hp, hp2]
      · have hp2 : ¬(rest.length + 1 + 1) % 2 = 1 := by omega
        simp [hp, hp2]

theorem trimTrailingNulls_append_zero (bs : List Nat) :
    trimTrailingNulls (bs ++ [0]) = trimTrailingNulls bs := by
  simp [trimTrailingNulls, List.reverse_append, List.dropWhile]

theorem trimTrailingNulls_eq_self (bs : List Nat) (h : bs.getLast? ≠ some 0) :
    trimTrailingNulls bs = bs := by
  unfold trimTrailingNulls
  cases hr : bs.reverse with
  | nil =>
      have : bs = [] := by simpa using congrArg List.reverse hr
      simp [this]
  | cons a t =>
      have hhead : bs.getLast? = some a := by
        rw [← List.head?_reverse, hr]
        rfl
      have ha : (a == 0) = false := by
        rcases eq_or_ne a 0 with h0 | h0
        · exact absurd (hhead.trans (by rw [h0])) h
        · simpa using h0
      rw [List.dropWhile_cons, ha]
      simp only [Bool.false_eq_true, if_false]
      rw [← hr, List.reverse_reverse]

/-- Witness for the amended claim C3 at the pattern 0x40490FD0 (the
IEEE-754 encoding of 3.14159f32). -/
theorem typed_32bit_word_order_witness :
    (0x40490FD0 : Nat) < 2 ^ 32
    ∧ ((write_f32_words 0x40490FD0).1 = 0x40490FD0 % 2 ^ 16
      ∧ (write_f32_words 0x40490FD0).2 = 0x40490FD0 / 2 ^ 16
      ∧ read_f32_bits (write_f32_words 0x40490FD0).1 (write_f32_words 0x40490FD0).2 = 0x40490FD0
      ∧ (write_i32_words 0x40490FD0).1 = 0x40490FD0 / 2 ^ 16
      ∧ (write_i32_words 0x40490FD0).2 = 0x40490FD0 % 2 ^ 16
      ∧ read_i32_bits (write_i32_words 0x40490FD0).1 (write_i32_words 0x40490FD0).2 = 0x40490FD0) :=
  ⟨by decide, typed_32bit_word_order 0x40490FD0 (by decide)⟩

/-- Claim C6: for every non-empty ASCII byte string with no trailing NUL
that fits in 999 words, packing it two characters per word with the first
character in each word's low byte (write_string), then unpacking low byte
first and trimming trailing NUL bytes (read_string), returns exactly the
original string. -/
theorem string_roundtrip (bs : List Nat) (hne : bs ≠ [])
    (hascii : ∀ b ∈ bs, b < 128) (hlast : bs.getLast? ≠ some 0)
    (hlen : (bs.length + 1) / 2 ≤ 999) :
    readStringBytes (stringToWords bs) = bs := by
  have h256 : ∀ b ∈ bs, b < 256 := fun b hb => lt_trans (hascii b hb) (by norm_num)
  unfold readStringBytes
  rw [wordsToStringBytes_stringToWords bs h256]
  by_cases hp : bs.length % 2 = 1
  · simp only [hp, if_pos]
    rw [trimTrailingNulls_append_zero, trimTrailingNulls_eq_self bs hlast]
  · simp only [hp, if_neg, ite_false]
    rw [List.append_nil, trimTrailingNulls_eq_self bs hlast]

theorem constStub_oneExchange (reply : List Nat) (r : FinsResponse) (data : List Nat)
    (s : Nat × Nat) (h : FinsResponse.from_bytes reply = Except.ok r) :
    oneExchange (constStub reply) data s = (Except.ok r, (s.1 + 1, s.2)) := by
  unfold oneExchange constStub
  simp only []
  rw [h]

theorem constStub_sidLoop_zero (reply data : List Nat) (expected : Nat) (r : FinsResponse)
    (h : FinsResponse.from_bytes reply = Except.ok r) (first : Bool) (s : Nat × Nat) :
    sidLoop (constStub reply) data expected 0 first s =
      (Except.error (FinsError.SidMismatch expected r.header.sid), (s.1 + 1, s.2 + 1)) := by
  rw [sidLoop]
  rw [show (constStub reply).drain_pending s = (s.1, s.2 + 1) from rfl]
  rw [constStub_oneExchange reply r data (s.1, s.2 + 1) h]

theorem constStub_sidLoop_step (reply data : List Nat) (expected : Nat) (r : FinsResponse)
    (h : FinsResponse.from_bytes reply = Except.ok r) (hne : r.header.sid ≠ expected)
    (n : Nat) (first : Bool) (s : Nat × Nat) :
    sidLoop (constStub reply) data expected (n + 1) first s =
      sidLoop (constStub reply) data expected n false
        (s.1 + 1, if first then s.2 else s.2 + 1) := by
  cases first with
  | true =>
      rw [sidLoop]
      rw [show (if (true : Bool) then s else (constStub reply).drain_pending s) = s from rfl]
      rw [constStub_oneExchange reply r data s h]
      simp only [if_neg hne, if_true]
  | false =>
      rw [sidLoop]
      rw [show (if (false : Bool) then s else (constStub reply).drain_pending s) =
        (s.1, s.2 + 1) from rfl]
      rw [constStub_oneExchange reply r data (s.1, s.2 + 1) h]
      simp only [if_neg hne, if_false, Bool.false_eq_true]

theorem constStub_sidLoop_false (reply data : List Nat) (expected : Nat) (r : FinsResponse)
    (h : FinsResponse.from_bytes reply = Except.ok r) (hne : r.header.sid ≠ expected) :
    ∀ (n : Nat) (s : Nat × Nat),
      sidLoop (constStub reply) data expected n false s =
        (Except.error (FinsError.SidMismatch expected r.header.sid),
         (s.1 + n + 1, s.2 + n + 1)) := by
  intro n
  induction n with
  | zero =>
      intro s
      rw [constStub_sidLoop_zero reply data expected r h false s]
  | succ n ih =>
      intro s
      rw [constStub_sidLoop_step reply data expected r h hne n false s]
      simp only [Bool.false_eq_true, if_false]
      rw [ih (s.1 + 1, s.2 + 1)]
      simp only [Prod.mk.injEq, true_and]
      constructor <;> omega

/-- Claim C1, amended: against a transport that answers every receive with
the same datagram whose correlation id differs from the expected one, the
transaction fails with SidMismatch carrying the expected and the actually
received id, after the initial attempt plus exactly 3 retries plus one
final drain+resend+decode performed purely for diagnostics — so the
encoded request is sent exactly 5 times (not at most 4), and the transport
is drained 4 times. -/
theorem sid_retry_exhaustion (data reply : List Nat) (expected : Nat)
    (r : FinsResponse) (s : Nat × Nat)
    (h : FinsResponse.from_bytes reply = Except.ok r)
    (hne : r.header.sid ≠ expected) :
    send_receive_with_sid (constStub reply) data expected s =
      (Except.error (FinsError.SidMismatch expected r.header.sid),
       (s.1 + 5, s.2 + 4)) := by
  unfold send_receive_with_sid MAX_SID_RETRIES
  rw [constStub_sidLoop_step reply data expected r h hne 3 true s]
  simp only [if_true]
  rw [constStub_sidLoop_false reply data expected r h hne 3 (s.1 + 1, s.2)]

/-- Witness for the amended claim C1 with a concrete stale datagram whose
id is 2 while 0 is expected. -/
theorem sid_retry_exhaustion_witness :
    FinsResponse.from_bytes
        [0xC0, 0x00, 0x02, 0x00, 0x01, 0x00, 0x00, 0x0A, 0x00, 0x02, 0x01, 0x01, 0x00, 0x00] =
      Except.ok
        { header := { icf := 0xC0, rsv := 0x00, gct := 0x02, dna := 0x00, da1 := 0x01,
                      da2 := 0x00, sna := 0x00, sa1 := 0x0A, sa2 := 0x00, sid := 0x02 }
          mrc := 0x01, src := 0x01, main_code := 0x00, sub_code := 0x00, data := [] }
    ∧ (2 : Nat) ≠ 0
    ∧ send_receive_with_sid
        (constStub
          [0xC0, 0x00, 0x02, 0x00, 0x01, 0x00, 0x00, 0x0A, 0x00, 0x02, 0x01, 0x01, 0x00, 0x00])
        [] 0 (0, 0) =
      (Except.error (FinsError.SidMismatch 0 2), (0 + 5, 0 + 4)) :=
  ⟨rfl, by decide,
   sid_retry_exhaustion []
     [0xC0, 0x00, 0x02, 0x00, 0x01, 0x00, 0x00, 0x0A, 0x00, 0x02, 0x01, 0x01, 0x00, 0x00] 0
     { header := { icf := 0xC0, rsv := 0x00, gct := 0x02, dna := 0x00, da1 := 0x01,
                   da2 := 0x00, sna := 0x00, sa1 := 0x0A, sa2 := 0x00, sid := 0x02 }
       mrc := 0x01, src := 0x01, main_code := 0x00, sub_code := 0x00, data := [] }
     (0, 0) rfl (by decide)⟩

theorem scriptStub_oneExchange (rb : List Nat) (rest : List (List Nat))
    (r : FinsResponse) (data : List Nat) (sends drains : Nat)
    (h : FinsResponse.from_bytes rb = Except.ok r) :
    oneExchange scriptStub data (rb :: rest, sends, drains) =
      (Except.ok r, (rest, sends + 1, drains)) := by
  have hred : oneExchange scriptStub data (rb :: rest, sends, drains) =
      match FinsResponse.from_bytes rb with
      | Except.error e => (Except.error e, (rest, sends + 1, drains))
      | Except.ok r' => (Except.ok r', (rest, sends + 1, drains)) := rfl
  rw [hred, h]

/-- Claim C5: for a transport that yields one datagram with a mismatched
correlation id followed by one whose id matches, the transaction succeeds
without surfacing any error: the stale datagram is discarded, the pending
queue is drained once, the same encoded buffer is resent (2 sends in
total), and the matched response is returned. -/
theorem stale_then_match_recovery (data b1 b2 : List Nat) (expected : Nat)
    (r1 r2 : FinsResponse)
    (h1 : FinsResponse.from_bytes b1 = Except.ok r1)
    (hne : r1.header.sid ≠ expected)
    (h2 : FinsResponse.from_bytes b2 = Except.ok r2)
    (heq : r2.header.sid = expected) :
    send_receive_with_sid scriptStub data expected ([b1, b2], 0, 0) =
      (Except.ok r2, ([], 2, 1)) := by
  have step1 : sidLoop scriptStub data expected (3 + 1) true ([b1, b2], 0, 0) =
      sidLoop scriptStub data expected 3 false ([b2], 1, 0) := by
    rw [sidLoop]
    rw [show (if (true : Bool) then (([b1, b2], 0, 0) : List (List Nat) × Nat × Nat)
        else scriptStub.drain_pending ([b1, b2], 0, 0)) = ([b1, b2], 0, 0) from rfl]
    rw [scriptStub_oneExchange b1 [b2] r1 data 0 0 h1]
    simp only [if_neg hne]
  have step2 : sidLoop scriptStub data expected 3 false ([b2], 1, 0) =
      (Except.ok r2, ([], 2, 1)) := by
    rw [show (3 : Nat) = 2 + 1 from rfl]
    rw [sidLoop]
    rw [show (if (false : Bool) then (([b2], 1, 0) : List (List Nat) × Nat × Nat)
        else scriptStub.drain_pending ([b2], 1, 0)) = ([b2], 1, 1) from rfl]
    rw [scriptStub_oneExchange b2 [] r2 data 1 1 h2]
    simp only [if_pos heq]
  unfold send_receive_with_sid MAX_SID_RETRIES
  rw [step1, step2]

/-- Witness for claim C5: a stale datagram with id 7 followed by a
matching one with id 5 while 5 is expected. -/
theorem stale_then_match_recovery_witness :
    FinsResponse.from_bytes
        [0xC0, 0x00, 0x02, 0x00, 0x01, 0x00, 0x00, 0x0A, 0x00, 0x07, 0x01, 0x01, 0x00, 0x00] =
      Except.ok
        { header := { icf := 0xC0, rsv := 0x00, gct := 0x02, dna := 0x00, da1 := 0x01,
                      da2 := 0x00, sna := 0x00, sa1 := 0x0A, sa2 := 0x00, sid := 0x07 }
          mrc := 0x01, src := 0x01, main_code := 0x00, sub_code := 0x00, data := [] }
    ∧ (7 : Nat) ≠ 5
    ∧ FinsResponse.from_bytes
        [0xC0, 0x00, 0x02, 0x00, 0x01, 0x00, 0x00, 0x0A, 0x00, 0x05, 0x01, 0x01, 0x00, 0x00,
         0x12, 0x34] =
      Except.ok
        { header := { icf := 0xC0, rsv := 0x00, gct := 0x02, dna := 0x00, da1 := 0x01,
                      da2 := 0x00, sna := 0x00, sa1 := 0x0A, sa2 := 0x00, sid := 0x05 }
          mrc := 0x01, src := 0x01, main_code := 0x00, sub_code := 0x00, data := [0x12, 0x34] }
    ∧ send_receive_with_sid scriptStub [] 5
        ([[0xC0, 0x00, 0x02, 0x00, 0x01, 0x00, 0x00, 0x0A, 0x00, 0x07, 0x01, 0x01, 0x00, 0x00],
          [0xC0, 0x00, 0x02, 0x00, 0x01, 0x00, 0x00, 0x0A, 0x00, 0x05, 0x01, 0x01, 0x00, 0x00,
           0x12, 0x34]], 0, 0) =
      (Except.ok
        { header := { icf := 0xC0, rsv := 0x00, gct := 0x02, dna := 0x00, da1 := 0x01,
                      da2 := 0x00, sna := 0x00, sa1 := 0x0A, sa2 := 0x00, sid := 0x05 }
          mrc := 0x01, src := 0x01, main_code := 0x00, sub_code := 0x00, data := [0x12, 0x34] },
       ([], 2, 1)) :=
  ⟨rfl, by decide, rfl,
   stale_then_match_recovery []
     [0xC0, 0x00, 0x02, 0x00, 0x01, 0x00, 0x00, 0x0A, 0x00, 0x07, 0x01, 0x01, 0x00, 0x00]
     [0xC0, 0x00, 0x02, 0x00, 0x01, 0x00, 0x00, 0x0A, 0x00, 0x05, 0x01, 0x01, 0x00, 0x00,
      0x12, 0x34] 5
     { header := { icf := 0xC0, rsv := 0x00, gct := 0x02, dna := 0x00, da1 := 0x01,
                   da2 := 0x00, sna := 0x00, sa1 := 0x0A, sa2 := 0x00, sid := 0x07 }
       mrc := 0x01, src := 0x01, main_code := 0x00, sub_code := 0x00, data := [] }
     { header := { icf := 0xC0, rsv := 0x00, gct := 0x02, dna := 0x00, da1 := 0x01,
                   da2 := 0x00, sna := 0x00, sa1 := 0x0A, sa2 := 0x00, sid := 0x05 }
       mrc := 0x01, src := 0x01, main_code := 0x00, sub_code := 0x00, data := [0x12, 0x34] }
     rfl (by decide) rfl rfl⟩

/-- Counterexample for claim C1 as stated: with a transport that always
answers with a mismatched correlation id, the transaction sends the
encoded request 5 times in total, not at most 4. -/
theorem sid_retry_send_count_counterexample :
    (send_receive_with_sid
        (constStub
          [0xC0, 0x00, 0x02, 0x00, 0x01, 0x00, 0x00, 0x0A, 0x00, 0x02, 0x01, 0x01, 0x00, 0x00])
        [] 0 (0, 0)).2.1 = 5
    ∧ ¬ (send_receive_with_sid
        (constStub
          [0xC0, 0x00, 0x02, 0x00, 0x01, 0x00, 0x00, 0x0A, 0x00, 0x02, 0x01, 0x01, 0x00, 0x00])
        [] 0 (0, 0)).2.1 ≤ 4 := by
  refine ⟨by decide, by decide⟩

/-- Witness for claim C6: the ASCII bytes of the string PRODUCT-001
round-trip exactly. -/
theorem string_roundtrip_witness :
    ([80, 82, 79, 68, 85, 67, 84, 45, 48, 48, 49] : List Nat) ≠ []
    ∧ (∀ b ∈ ([80, 82, 79, 68, 85, 67, 84, 45, 48, 48, 49] : List Nat), b < 128)
    ∧ ([80, 82, 79, 68, 85, 67, 84, 45, 48, 48, 49] : List Nat).getLast? ≠ some 0
    ∧ (([80, 82, 79, 68, 85, 67, 84, 45, 48, 48, 49] : List Nat).length + 1) / 2 ≤ 999
    ∧ readStringBytes (stringToWords [80, 82, 79, 68, 85, 67, 84, 45, 48, 48, 49]) =
        [80, 82, 79, 68, 85, 67, 84, 45, 48, 48, 49] :=
  ⟨by decide, by decide, by decide, by decide,
   string_roundtrip [80, 82, 79, 68, 85, 67, 84, 45, 48, 48, 49]
     (by decide) (by decide) (by decide) (by decide)⟩
